import Mathlib

/-!
Shallow embedding of the todo HTTP service in `src/backend/app.py` (Flask
handlers over a single-table store) together with proofs about the claims
of its specification.

Modelling conventions:
* A parsed JSON value is `JVal`.  The result of `request.get_json()` is an
  `Option JVal`: `none` models the Python value `None`, which the framework
  returns both for an absent/empty body and for a body that is the JSON
  literal `null` (the spec records this conflation as intended behaviour).
* Python truthiness of JSON values is `JVal.truthy`; `data.get(k)` on a dict
  is `JVal.getKey`; `str.strip()` is `pyStrip` (leading/trailing ASCII
  whitespace; unicode spaces are abstracted away).  Calling `.strip()` on a
  non-string raises `AttributeError`, which the handlers catch in their
  generic `except Exception` branch (response 400 "Invalid request data");
  the embedding returns that response directly at those points.
* The database session is modelled by `Store`.  ORM attribute assignments
  (`todo.title = ...`) mutate a draft record; the store itself changes only
  at `db.session.commit()`.  A handler that returns before the commit leaves
  the store unchanged (the framework rolls the session back at request
  teardown), exactly as in the source.
* Each handler takes a flag `dbOk : Bool`: `true` means no database
  operation raises `SQLAlchemyError` during the request; `false` means the
  first one attempted raises, so the handler answers through its
  `except SQLAlchemyError` branch (HTTP 500, session rolled back, store
  unchanged).  A later operation failing after earlier ones succeed yields
  the same observable response and the same unchanged store in this code,
  so the single flag loses no observable behaviour.
* `id` values are `Nat`; `created_at` timestamps are `Nat` ticks of the
  store clock (strictly increasing across creations), serialised to a
  string in `Todo.to_dict` in place of the ISO-8601 rendering.
-/

/-- A parsed JSON value. -/
inductive JVal where
  | jnull
  | jbool (b : Bool)
  | jnum (n : Int)
  | jstr (s : String)
  | jarr (xs : List JVal)
  | jobj (fields : List (String × JVal))

namespace JVal

/-- Python truthiness of a JSON value (`bool(x)`): `None`, `False`, `0`,
`""`, `[]` and the empty dict are falsy, everything else truthy. -/
def truthy : JVal → Bool
  | jnull => false
  | jbool b => b
  | jnum n => n != 0
  | jstr s => s ≠ ""
  | jarr xs => !xs.isEmpty
  | jobj fs => !fs.isEmpty

/-- Dictionary key lookup, `data.get(k)` / `k in data` on a parsed JSON
object (`none` when the key is absent or the value is not an object). -/
def getKey : JVal → String → Option JVal
  | jobj fs, k => fs.lookup k
  | _, _ => none

/-- Whether the value is a Python `bool`, as tested by
`isinstance(x, bool)` in `update_todo`. -/
def isBool : JVal → Bool
  | jbool _ => true
  | _ => false

/-- Whether the value is a Python string. -/
def isStr : JVal → Bool
  | jstr _ => true
  | _ => false

/-- Whether the value is a JSON object (Python dict). -/
def isObj : JVal → Bool
  | jobj _ => true
  | _ => false

end JVal

/-- The characters removed by Python `str.strip()` (ASCII whitespace;
unicode whitespace is abstracted away in this model). -/
def pyIsSpace (c : Char) : Bool :=
  c = ' ' || c = '\t' || c = '\n' || c = '\r' || c = '\x0b' || c = '\x0c'

/-- Python `str.strip()`: removes leading and trailing whitespace. -/
def pyStrip (s : String) : String :=
  ⟨List.rdropWhile pyIsSpace (List.dropWhile pyIsSpace s.data)⟩

/-- A stored todo record (the row of the single table).  `models.py` is not
part of the sources; the record follows the spec data model.  The handler
passes the request value of `completed` to the constructor unvalidated, so
the field holds a `JVal` rather than a `Bool`; whether it is always a
boolean is exactly the invariant under study. -/
structure Todo where
  id : Nat
  title : String
  description : String
  completed : JVal
  created_at : Nat

/-- Modelled from the spec: the JSON representation of a Todo produced by
`to_dict` in the absent `models.py` is
`id:int, title:string, description:string, completed, created_at:string`
(the ISO-8601 timestamp rendering is abstracted to `toString` of the
clock tick). -/
def Todo.to_dict (t : Todo) : JVal :=
  JVal.jobj [("id", JVal.jnum t.id), ("title", JVal.jstr t.title),
    ("description", JVal.jstr t.description), ("completed", t.completed),
    ("created_at", JVal.jstr (toString t.created_at))]

/-- The persistent store: the todo table plus the id sequence and the clock
that stamps `created_at`. -/
structure Store where
  todos : List Todo
  nextId : Nat
  clock : Nat

/-- `Todo.query.get(todo_id)`: primary-key lookup. -/
def findTodo (s : Store) (todo_id : Nat) : Option Todo :=
  s.todos.find? (fun t => t.id = todo_id)

/-- The JSON body of an endpoint response, plus its HTTP status code.
Absent envelope keys are `none`. -/
structure Response where
  status : Nat
  success : Bool
  data : Option JVal
  count : Option Nat
  message : Option String
  error : Option String

/-- An envelope `success: false, error: msg` with the given status. -/
def errorResp (st : Nat) (msg : String) : Response :=
  { status := st, success := false, data := none, count := none,
    message := none, error := some msg }

/-- The 400 response of the generic `except Exception` branches of
`create_todo` and `update_todo` (raised `AttributeError` from `.strip()` on
a non-string, and similar). -/
def invalidDataResp : Response := errorResp 400 "Invalid request data"

/-- The 400 response for a missing/falsy parsed body. -/
def noDataResp : Response := errorResp 400 "No data provided"

/-- The 404 response for an id that resolves to no record. -/
def notFoundResp (todo_id : Nat) : Response :=
  errorResp 404 ("Todo with id " ++ toString todo_id ++ " not found")

/-- Ordering used by `Todo.query.order_by(Todo.created_at.desc())`. -/
def createdDesc (a b : Todo) : Prop := b.created_at ≤ a.created_at

instance : DecidableRel createdDesc := fun a b =>
  Nat.decLe b.created_at a.created_at

instance : IsTotal Todo createdDesc :=
  ⟨fun a b => (Nat.le_total b.created_at a.created_at).imp id id⟩

instance : IsTrans Todo createdDesc :=
  ⟨fun _ _ _ hab hbc => Nat.le_trans hbc hab⟩

/-- `GET /api/todos` (`get_todos` in `app.py`): all todos ordered by
`created_at` descending, with their count. -/
def get_todos (s : Store) (dbOk : Bool) : Response :=
  if dbOk then
    let todos := List.insertionSort createdDesc s.todos
    { status := 200, success := true,
      data := some (JVal.jarr (todos.map Todo.to_dict)),
      count := some todos.length, message := none, error := none }
  else errorResp 500 "Database error occurred"

/-- `GET /api/todos/<id>` (`get_todo` in `app.py`). -/
def get_todo (s : Store) (todo_id : Nat) (dbOk : Bool) : Response :=
  if dbOk then
    match findTodo s todo_id with
    | none => notFoundResp todo_id
    | some todo =>
      { status := 200, success := true, data := some todo.to_dict,
        count := none, message := none, error := none }
  else errorResp 500 "Database error occurred"

/-- The value stored for `description` on create:
`data.get('description', '').strip()`.  `none` means the expression raised
(`.strip()` on a non-string). -/
def createDescValue : Option JVal → Option String
  | none => some ""
  | some (JVal.jstr d) => some (pyStrip d)
  | some _ => none

/-- `POST /api/todos` (`create_todo` in `app.py`). -/
def create_todo (s : Store) (body : Option JVal) (dbOk : Bool) :
    Response × Store :=
  match body with
  | none => (noDataResp, s)
  | some data =>
    if data.truthy = false then (noDataResp, s)
    else
      match data with
      | JVal.jobj fs =>
        match (JVal.jobj fs).getKey "title" with
        | none => (errorResp 400 "Title is required and cannot be empty", s)
        | some tv =>
          if tv.truthy = false then
            (errorResp 400 "Title is required and cannot be empty", s)
          else
            match tv with
            | JVal.jstr t =>
              if pyStrip t = "" then
                (errorResp 400 "Title is required and cannot be empty", s)
              else
                match createDescValue ((JVal.jobj fs).getKey "description") with
                | none => (invalidDataResp, s)
                | some d =>
                  if dbOk then
                    let todo : Todo :=
                      { id := s.nextId, title := pyStrip t, description := d,
                        completed :=
                          (((JVal.jobj fs).getKey "completed").getD
                            (JVal.jbool false)),
                        created_at := s.clock }
                    ({ status := 201, success := true,
                       data := some todo.to_dict, count := none,
                       message := some "Todo created successfully",
                       error := none },
                     { s with todos := s.todos ++ [todo],
                              nextId := s.nextId + 1, clock := s.clock + 1 })
                  else (errorResp 500 "Failed to create todo", s)
            | _ => (invalidDataResp, s)
      | _ => (invalidDataResp, s)

/-- The `if 'title' in data` block of `update_todo`, acting on the draft
record held by the session. -/
def applyTitle (data : JVal) (todo : Todo) : Except Response Todo :=
  match data.getKey "title" with
  | none => Except.ok todo
  | some tv =>
    if tv.truthy = false then
      Except.error (errorResp 400 "Title cannot be empty")
    else
      match tv with
      | JVal.jstr t =>
        if pyStrip t = "" then
          Except.error (errorResp 400 "Title cannot be empty")
        else Except.ok { todo with title := pyStrip t }
      | _ => Except.error invalidDataResp

/-- The `if 'description' in data` block of `update_todo`. -/
def applyDescription (data : JVal) (todo : Todo) : Except Response Todo :=
  match data.getKey "description" with
  | none => Except.ok todo
  | some dv =>
    if dv.truthy = false then Except.ok { todo with description := "" }
    else
      match dv with
      | JVal.jstr d => Except.ok { todo with description := pyStrip d }
      | _ => Except.error invalidDataResp

/-- The `if 'completed' in data` block of `update_todo`. -/
def applyCompleted (data : JVal) (todo : Todo) : Except Response Todo :=
  match data.getKey "completed" with
  | none => Except.ok todo
  | some cv =>
    if cv.isBool then Except.ok { todo with completed := cv }
    else Except.error (errorResp 400 "Completed must be a boolean value")

/-- The three field blocks of `update_todo` in source order, acting on the
session draft: title, then description, then completed. -/
def updateFields (data : JVal) (todo : Todo) : Except Response Todo :=
  (applyTitle data todo).bind
    (fun t1 => (applyDescription data t1).bind
      (fun t2 => applyCompleted data t2))

/-- Python substring test `need in hay`, which is what `'title' in data`
performs when the parsed body is a string. -/
def strContainsKey (hay need : String) : Bool :=
  (List.range (hay.data.length + 1)).any
    (fun i => need.data.isPrefixOf (hay.data.drop i))

/-- Python membership `need in xs` on a parsed JSON array: `==` against a
string only holds for an equal string element. -/
def jarrHasKey (xs : List JVal) (need : String) : Bool :=
  xs.any (fun v => match v with | JVal.jstr s => s == need | _ => false)

/-- `PUT /api/todos/<id>` (`update_todo` in `app.py`): look the record up,
reject a missing/falsy body, apply the title, description and completed
blocks in source order to the session draft, and commit on success.

The body is only tested with `'title' in data` (and the two other keys),
never for being a dict, so a truthy non-dict body follows Python's `in`:
on a string it is a substring test, on a list an element test, and on a
number or boolean it raises `TypeError` (caught as 400 "Invalid request
data").  When a key is found in a string or list body, the subscript
`data['title']` raises `TypeError` (same 400); when none of the three keys
is found, all three blocks are skipped and the handler commits nothing and
answers 200 with the unchanged record. -/
def update_todo (s : Store) (todo_id : Nat) (body : Option JVal)
    (dbOk : Bool) : Response × Store :=
  if dbOk then
    match findTodo s todo_id with
    | none => (notFoundResp todo_id, s)
    | some todo =>
      match body with
      | none => (noDataResp, s)
      | some data =>
        if data.truthy = false then (noDataResp, s)
        else
          match data with
          | JVal.jobj fs =>
            match updateFields (JVal.jobj fs) todo with
            | Except.error r => (r, s)
            | Except.ok todo2 =>
              ({ status := 200, success := true, data := some todo2.to_dict,
                 count := none, message := some "Todo updated successfully",
                 error := none },
               { s with todos :=
                   s.todos.map (fun t => if t.id = todo_id then todo2 else t) })
          | JVal.jstr str =>
            if strContainsKey str "title" || strContainsKey str "description"
                || strContainsKey str "completed" then
              (invalidDataResp, s)
            else
              ({ status := 200, success := true, data := some todo.to_dict,
                 count := none, message := some "Todo updated successfully",
                 error := none }, s)
          | JVal.jarr xs =>
            if jarrHasKey xs "title" || jarrHasKey xs "description"
                || jarrHasKey xs "completed" then
              (invalidDataResp, s)
            else
              ({ status := 200, success := true, data := some todo.to_dict,
                 count := none, message := some "Todo updated successfully",
                 error := none }, s)
          | _ => (invalidDataResp, s)
  else (errorResp 500 "Failed to update todo", s)

/-- `DELETE /api/todos/<id>` (`delete_todo` in `app.py`): hard delete by
primary key. -/
def delete_todo (s : Store) (todo_id : Nat) (dbOk : Bool) :
    Response × Store :=
  if dbOk then
    match findTodo s todo_id with
    | none => (notFoundResp todo_id, s)
    | some _ =>
      ({ status := 200, success := true, data := none, count := none,
         message := some "Todo deleted successfully", error := none },
       { s with todos := s.todos.filter (fun t => t.id ≠ todo_id) })
  else (errorResp 500 "Failed to delete todo", s)

/-- `GET /api/health` (`health_check` in `app.py`). -/
def health_check : Response :=
  { status := 200, success := true, data := none, count := none,
    message := some "API is running", error := none }

/-! Concrete fixtures used by witnesses. -/

/-- The empty store right after `init_db`. -/
def emptyStore : Store := { todos := [], nextId := 1, clock := 0 }

/-- The sample record of the test fixture. -/
def sampleTodo : Todo :=
  { id := 1, title := "Test Todo", description := "Test Description",
    completed := JVal.jbool false, created_at := 0 }

/-- A store holding the sample record. -/
def sampleStore : Store := { todos := [sampleTodo], nextId := 2, clock := 1 }

/-- After deleting `todo_id`, the primary-key lookup for it fails. -/
theorem findTodo_filter_ne (s : Store) (todo_id : Nat) :
    findTodo { s with todos := s.todos.filter (fun t => t.id ≠ todo_id) }
      todo_id = none := by
  simp [findTodo, List.find?_eq_none, List.mem_filter]

/-- C10: `update_todo` resolves the id before reading the body: a request
addressed to a nonexistent id answers 404 with the store unchanged, whatever
the body is (absent/null, non-object, or one that would fail validation). -/
theorem update_missing_id_404 (s : Store) (todo_id : Nat)
    (body : Option JVal) (h : findTodo s todo_id = none) :
    update_todo s todo_id body true = (notFoundResp todo_id, s) := by
  simp [update_todo, h]

theorem update_missing_id_404_witness :
    findTodo emptyStore 999 = none ∧
    update_todo emptyStore 999 (some (JVal.jobj [("title", JVal.jstr " ")]))
      true = (notFoundResp 999, emptyStore) :=
  ⟨rfl, update_missing_id_404 emptyStore 999
    (some (JVal.jobj [("title", JVal.jstr " ")])) rfl⟩

/-- C9: delete is a hard delete: deleting an existing id answers 200 and
removes the record, after which a get of that id and a second delete of
that id both answer 404. -/
theorem delete_is_hard (s : Store) (todo_id : Nat)
    (h : (findTodo s todo_id).isSome) :
    (delete_todo s todo_id true).1.status = 200 ∧
    (delete_todo s todo_id true).1.message = some "Todo deleted successfully" ∧
    findTodo (delete_todo s todo_id true).2 todo_id = none ∧
    (get_todo (delete_todo s todo_id true).2 todo_id true).status = 404 ∧
    (delete_todo (delete_todo s todo_id true).2 todo_id true).1.status = 404 := by
  cases hf : findTodo s todo_id with
  | none => rw [hf] at h; simp [Option.isSome] at h
  | some todo =>
    have hd : delete_todo s todo_id true =
        ({ status := 200, success := true, data := none, count := none,
           message := some "Todo deleted successfully", error := none },
         { s with todos := s.todos.filter (fun t => t.id ≠ todo_id) }) := by
      unfold delete_todo
      rw [hf]
      rfl
    have hgone : findTodo (delete_todo s todo_id true).2 todo_id = none := by
      rw [hd]
      exact findTodo_filter_ne s todo_id
    refine ⟨by rw [hd], by rw [hd], hgone, ?_, ?_⟩
    · unfold get_todo
      rw [hgone]
      rfl
    · rw [hd]
      show (delete_todo
        { s with todos := s.todos.filter (fun t => t.id ≠ todo_id) }
        todo_id true).1.status = 404
      unfold delete_todo
      rw [findTodo_filter_ne s todo_id]
      rfl

theorem delete_is_hard_witness :
    (findTodo sampleStore 1).isSome = true ∧
    ((delete_todo sampleStore 1 true).1.status = 200 ∧
     (delete_todo sampleStore 1 true).1.message =
       some "Todo deleted successfully" ∧
     findTodo (delete_todo sampleStore 1 true).2 1 = none ∧
     (get_todo (delete_todo sampleStore 1 true).2 1 true).status = 404 ∧
     (delete_todo (delete_todo sampleStore 1 true).2 1 true).1.status = 404) :=
  ⟨rfl, delete_is_hard sampleStore 1 rfl⟩

/-- C4: a body parsed to `null` reaches the handlers as the same Python
`None` as an absent body; on create, and on update of an existing id, the
answer is 400 with error "No data provided" and the store is unchanged. -/
theorem null_body_no_data (s : Store) (todo_id : Nat)
    (h : (findTodo s todo_id).isSome) :
    create_todo s none true = (noDataResp, s) ∧
    update_todo s todo_id none true = (noDataResp, s) ∧
    noDataResp.status = 400 ∧ noDataResp.error = some "No data provided" := by
  cases hf : findTodo s todo_id with
  | none => rw [hf] at h; simp [Option.isSome] at h
  | some todo => simp [create_todo, update_todo, hf, noDataResp, errorResp]

theorem null_body_no_data_witness :
    (findTodo sampleStore 1).isSome = true ∧
    (create_todo sampleStore none true = (noDataResp, sampleStore) ∧
     update_todo sampleStore 1 none true = (noDataResp, sampleStore) ∧
     noDataResp.status = 400 ∧ noDataResp.error = some "No data provided") :=
  ⟨rfl, null_body_no_data sampleStore 1 rfl⟩

/-- C2: an update that answers 400 never commits: the store after the
request is exactly the store before it, whatever mix of invalid fields the
body carried (the draft mutations of earlier valid fields are discarded at
session rollback). -/
theorem update_400_no_write (s : Store) (todo_id : Nat) (body : Option JVal)
    (dbOk : Bool) (r : Response) (s2 : Store)
    (h : update_todo s todo_id body dbOk = (r, s2)) (h4 : r.status = 400) :
    s2 = s := by
  unfold update_todo at h
  split at h
  · split at h
    · injection h with h1 h2; exact h2.symm
    · split at h
      · injection h with h1 h2; exact h2.symm
      · split at h
        · injection h with h1 h2; exact h2.symm
        · split at h
          all_goals try (injection h with h1 h2; exact h2.symm)
          · split at h
            · injection h with h1 h2; exact h2.symm
            · injection h with h1 h2
              rw [← h1] at h4
              simp at h4
          · split at h
            · injection h with h1 h2; exact h2.symm
            · injection h with h1 h2; exact h2.symm
          · split at h
            · injection h with h1 h2; exact h2.symm
            · injection h with h1 h2; exact h2.symm
  · injection h with h1 h2; exact h2.symm

theorem update_400_no_write_witness :
    update_todo sampleStore 1
      (some (JVal.jobj [("title", JVal.jstr "New"),
        ("completed", JVal.jstr "yes")])) true =
      (errorResp 400 "Completed must be a boolean value", sampleStore) ∧
    (errorResp 400 "Completed must be a boolean value").status = 400 ∧
    sampleStore = sampleStore :=
  ⟨rfl, rfl, update_400_no_write sampleStore 1
    (some (JVal.jobj [("title", JVal.jstr "New"),
      ("completed", JVal.jstr "yes")])) true
    (errorResp 400 "Completed must be a boolean value") sampleStore rfl rfl⟩

/-! Facts about `pyStrip`. -/

theorem dropWhile_append_neg (p : Char → Bool) (a : Char) (h : p a = false)
    (xs : List Char) :
    List.dropWhile p (xs ++ [a]) = List.dropWhile p xs ++ [a] := by
  induction xs with
  | nil => simp [List.dropWhile, h]
  | cons x xs ih =>
    by_cases hx : p x
    · simp [List.dropWhile_cons, hx, ih]
    · simp [List.dropWhile_cons, hx]

theorem rdropWhile_cons_neg (p : Char → Bool) (a : Char) (h : p a = false)
    (l : List Char) :
    List.rdropWhile p (a :: l) = a :: List.rdropWhile p l := by
  unfold List.rdropWhile
  rw [show (a :: l).reverse = l.reverse ++ [a] by simp]
  rw [dropWhile_append_neg p a h]
  simp

/-- The head of a `dropWhile p` result does not satisfy `p`. -/
theorem dropWhile_head_neg (p : Char → Bool) (l : List Char) (a : Char)
    (t : List Char) (h : List.dropWhile p l = a :: t) : p a = false := by
  induction l with
  | nil => simp [List.dropWhile] at h
  | cons x xs ih =>
    rw [List.dropWhile_cons] at h
    by_cases hx : p x
    · rw [if_pos hx] at h; exact ih h
    · rw [if_neg hx] at h
      injection h with h1 _
      rw [← h1]
      simpa using hx

/-- Stripping is idempotent, hence a stored stripped string carries no
leading or trailing whitespace. -/
theorem pyStrip_idem (s : String) : pyStrip (pyStrip s) = pyStrip s := by
  unfold pyStrip
  cases hm : List.dropWhile pyIsSpace s.data with
  | nil => simp [List.rdropWhile]
  | cons a t =>
    have ha' := dropWhile_head_neg pyIsSpace s.data a t hm
    show String.mk (List.rdropWhile pyIsSpace
        (List.dropWhile pyIsSpace (List.rdropWhile pyIsSpace (a :: t)))) =
      String.mk (List.rdropWhile pyIsSpace (a :: t))
    rw [rdropWhile_cons_neg pyIsSpace a ha' t]
    rw [List.dropWhile_cons]
    simp only [ha', Bool.false_eq_true, if_false]
    rw [rdropWhile_cons_neg pyIsSpace a ha' (List.rdropWhile pyIsSpace t)]
    rw [List.rdropWhile_idempotent]

theorem pyStrip_empty : pyStrip "" = "" := rfl

/-- C5: the list endpoint answers with every stored todo, ordered by
`created_at` descending, and a count equal to the number of returned
records. -/
theorem get_todos_ordered (s : Store) :
    ∃ l : List Todo, List.Perm l s.todos ∧ l.Sorted createdDesc ∧
      get_todos s true =
        { status := 200, success := true,
          data := some (JVal.jarr (l.map Todo.to_dict)),
          count := some l.length, message := none, error := none } ∧
      l.length = s.todos.length :=
  ⟨List.insertionSort createdDesc s.todos,
    List.perm_insertionSort createdDesc s.todos,
    List.sorted_insertionSort createdDesc s.todos, rfl,
    (List.perm_insertionSort createdDesc s.todos).length_eq⟩

/-! Facts about the field blocks of `update_todo`. -/

theorem applyTitle_ok (d : JVal) (t t' : Todo)
    (h : applyTitle d t = Except.ok t') :
    t'.id = t.id ∧ t'.created_at = t.created_at ∧
    t'.description = t.description ∧ t'.completed = t.completed ∧
    (d.getKey "title" = none → t'.title = t.title) ∧
    (t'.title = t.title ∨ ∃ str, t'.title = pyStrip str) := by
  unfold applyTitle at h
  split at h
  · injection h with h
    subst h
    exact ⟨rfl, rfl, rfl, rfl, fun _ => rfl, Or.inl rfl⟩
  · rename_i tv heq
    split at h
    · exact Except.noConfusion h
    · split at h
      all_goals try exact Except.noConfusion h
      split at h
      · exact Except.noConfusion h
      · injection h with h
        subst h
        refine ⟨rfl, rfl, rfl, rfl, ?_, Or.inr ⟨_, rfl⟩⟩
        intro hn
        rw [hn] at heq
        exact Option.noConfusion heq

theorem applyDescription_ok (d : JVal) (t t' : Todo)
    (h : applyDescription d t = Except.ok t') :
    t'.id = t.id ∧ t'.created_at = t.created_at ∧
    t'.title = t.title ∧ t'.completed = t.completed ∧
    (d.getKey "description" = none → t'.description = t.description) ∧
    (t'.description = t.description ∨ t'.description = "" ∨
      ∃ str, t'.description = pyStrip str) := by
  unfold applyDescription at h
  split at h
  · injection h with h
    subst h
    exact ⟨rfl, rfl, rfl, rfl, fun _ => rfl, Or.inl rfl⟩
  · rename_i dv heq
    split at h
    · injection h with h
      subst h
      refine ⟨rfl, rfl, rfl, rfl, ?_, Or.inr (Or.inl rfl)⟩
      intro hn
      rw [hn] at heq
      exact Option.noConfusion heq
    · split at h
      all_goals try exact Except.noConfusion h
      injection h with h
      subst h
      refine ⟨rfl, rfl, rfl, rfl, ?_, Or.inr (Or.inr ⟨_, rfl⟩)⟩
      intro hn
      rw [hn] at heq
      exact Option.noConfusion heq

theorem applyCompleted_ok (d : JVal) (t t' : Todo)
    (h : applyCompleted d t = Except.ok t') :
    t'.id = t.id ∧ t'.created_at = t.created_at ∧
    t'.title = t.title ∧ t'.description = t.description ∧
    (d.getKey "completed" = none → t'.completed = t.completed) ∧
    (t'.completed = t.completed ∨ t'.completed.isBool = true) := by
  unfold applyCompleted at h
  split at h
  · injection h with h
    subst h
    exact ⟨rfl, rfl, rfl, rfl, fun _ => rfl, Or.inl rfl⟩
  · rename_i cv heq
    split at h
    · rename_i hb
      injection h with h
      subst h
      refine ⟨rfl, rfl, rfl, rfl, ?_, Or.inr hb⟩
      intro hn
      rw [hn] at heq
      exact Option.noConfusion heq
    · exact Except.noConfusion h

theorem applyTitle_error (d : JVal) (t : Todo) (r : Response)
    (h : applyTitle d t = Except.error r) :
    r = errorResp 400 "Title cannot be empty" ∨ r = invalidDataResp := by
  unfold applyTitle at h
  split at h
  · exact Except.noConfusion h
  · split at h
    · injection h with h; exact Or.inl h.symm
    · split at h
      all_goals try (first
        | exact Except.noConfusion h
        | (injection h with h; exact Or.inr h.symm))
      split at h
      · injection h with h; exact Or.inl h.symm
      · exact Except.noConfusion h

theorem applyDescription_error (d : JVal) (t : Todo) (r : Response)
    (h : applyDescription d t = Except.error r) : r = invalidDataResp := by
  unfold applyDescription at h
  split at h
  · exact Except.noConfusion h
  · split at h
    · exact Except.noConfusion h
    · split at h
      all_goals first
        | exact Except.noConfusion h
        | (injection h with h; exact h.symm)

theorem applyCompleted_error (d : JVal) (t : Todo) (r : Response)
    (h : applyCompleted d t = Except.error r) :
    r = errorResp 400 "Completed must be a boolean value" := by
  unfold applyCompleted at h
  split at h
  · exact Except.noConfusion h
  · split at h
    · exact Except.noConfusion h
    · injection h with h; exact h.symm

theorem updateFields_error_cases (d : JVal) (t : Todo) (r : Response)
    (h : updateFields d t = Except.error r) :
    r = errorResp 400 "Title cannot be empty" ∨ r = invalidDataResp ∨
    r = errorResp 400 "Completed must be a boolean value" := by
  unfold updateFields at h
  cases h1 : applyTitle d t with
  | error r1 =>
    rw [h1] at h
    simp only [Except.bind] at h
    injection h with h
    subst h
    rcases applyTitle_error d t r1 h1 with he | he
    · exact Or.inl he
    · exact Or.inr (Or.inl he)
  | ok ta =>
    rw [h1] at h
    simp only [Except.bind] at h
    cases h2 : applyDescription d ta with
    | error r2 =>
      rw [h2] at h
      simp only [Except.bind] at h
      injection h with h
      subst h
      exact Or.inr (Or.inl (applyDescription_error d ta r2 h2))
    | ok tb =>
      rw [h2] at h
      simp only [Except.bind] at h
      exact Or.inr (Or.inr (applyCompleted_error d tb r h))

theorem updateFields_ok (d : JVal) (t t2 : Todo)
    (h : updateFields d t = Except.ok t2) :
    t2.id = t.id ∧ t2.created_at = t.created_at ∧
    (d.getKey "title" = none → t2.title = t.title) ∧
    (d.getKey "description" = none → t2.description = t.description) ∧
    (d.getKey "completed" = none → t2.completed = t.completed) ∧
    (t2.title = t.title ∨ ∃ str, t2.title = pyStrip str) ∧
    (t2.description = t.description ∨ t2.description = "" ∨
      ∃ str, t2.description = pyStrip str) ∧
    (t2.completed = t.completed ∨ t2.completed.isBool = true) := by
  unfold updateFields at h
  cases h1 : applyTitle d t with
  | error r1 =>
    rw [h1] at h
    simp only [Except.bind] at h
    exact Except.noConfusion h
  | ok ta =>
    rw [h1] at h
    simp only [Except.bind] at h
    cases h2 : applyDescription d ta with
    | error r2 =>
      rw [h2] at h
      simp only [Except.bind] at h
      exact Except.noConfusion h
    | ok tb =>
      rw [h2] at h
      simp only [Except.bind] at h
      obtain ⟨a1, a2, a3, a4, a5, a6⟩ := applyTitle_ok d t ta h1
      obtain ⟨b1, b2, b3, b4, b5, b6⟩ := applyDescription_ok d ta tb h2
      obtain ⟨c1, c2, c3, c4, c5, c6⟩ := applyCompleted_ok d tb t2 h
      refine ⟨c1.trans (b1.trans a1), c2.trans (b2.trans a2), ?_, ?_, ?_,
        ?_, ?_, ?_⟩
      · intro hn; rw [c3, b3]; exact a5 hn
      · intro hn; rw [c4]; rw [b5 hn]; exact a3
      · intro hn; rw [c5 hn, b4, a4]
      · rw [c3, b3]; exact a6
      · rcases b6 with hb | hb | hb
        · exact Or.inl (c4.trans (hb.trans a3))
        · exact Or.inr (Or.inl (c4.trans hb))
        · obtain ⟨str, hs⟩ := hb
          exact Or.inr (Or.inr ⟨str, c4.trans hs⟩)
      · rcases c6 with hc | hc
        · exact Or.inl (hc.trans (b4.trans a4))
        · exact Or.inr hc

/-- A present non-boolean `completed` makes `updateFields` fail. -/
theorem updateFields_nonbool_not_ok (d : JVal) (t : Todo) (cv : JVal)
    (hc : d.getKey "completed" = some cv) (hb : cv.isBool = false)
    (t2 : Todo) (h : updateFields d t = Except.ok t2) : False := by
  unfold updateFields at h
  cases h1 : applyTitle d t with
  | error r1 =>
    rw [h1] at h
    simp only [Except.bind] at h
    exact Except.noConfusion h
  | ok ta =>
    rw [h1] at h
    simp only [Except.bind] at h
    cases h2 : applyDescription d ta with
    | error r2 =>
      rw [h2] at h
      simp only [Except.bind] at h
      exact Except.noConfusion h
    | ok tb =>
      rw [h2] at h
      simp only [Except.bind] at h
      simp [applyCompleted, hc, hb] at h

/-- C1 counterexample: a create request whose `completed` is the string
"yes" is not rejected: it answers 201 and the resulting store holds a
non-boolean `completed`. -/
theorem create_nonbool_completed_201 :
    (create_todo emptyStore
      (some (JVal.jobj [("title", JVal.jstr "Task"),
        ("completed", JVal.jstr "yes")])) true).1.status = 201 ∧
    (create_todo emptyStore
      (some (JVal.jobj [("title", JVal.jstr "Task"),
        ("completed", JVal.jstr "yes")])) true).2.todos.map
      (fun t => t.completed.isBool) = [false] :=
  ⟨rfl, rfl⟩

/-- C1 (amended): on update a non-boolean `completed` is rejected with 400
and the store is untouched; on create no boolean check is applied: the
request value of `completed` (default `false` when absent) is stored as
given. -/
theorem completed_policy :
    (∀ (s : Store) (todo_id : Nat) (todo : Todo) (fs : List (String × JVal))
      (cv : JVal), findTodo s todo_id = some todo →
      (JVal.jobj fs).truthy = true →
      (JVal.jobj fs).getKey "completed" = some cv → cv.isBool = false →
      (update_todo s todo_id (some (JVal.jobj fs)) true).1.status = 400 ∧
      (update_todo s todo_id (some (JVal.jobj fs)) true).2 = s) ∧
    (∀ (s : Store) (fs : List (String × JVal)) (r : Response) (s2 : Store),
      create_todo s (some (JVal.jobj fs)) true = (r, s2) → r.status = 201 →
      s2.todos.map Todo.completed = s.todos.map Todo.completed ++
        [((JVal.jobj fs).getKey "completed").getD (JVal.jbool false)]) := by
  constructor
  · intro s todo_id todo fs cv hf htr hc hb
    cases hres : updateFields (JVal.jobj fs) todo with
    | ok t2 => exact (updateFields_nonbool_not_ok _ _ cv hc hb t2 hres).elim
    | error r =>
      have hu : update_todo s todo_id (some (JVal.jobj fs)) true = (r, s) := by
        simp only [update_todo, hf, htr, hres]
        rfl
      rw [hu]
      rcases updateFields_error_cases _ _ _ hres with he | he | he <;>
        subst he <;> exact ⟨rfl, rfl⟩
  · intro s fs r s2 h h201
    simp only [create_todo] at h
    by_cases htr : (JVal.jobj fs).truthy = false
    · rw [if_pos htr] at h
      injection h with h1 _
      rw [← h1] at h201
      simp [noDataResp, errorResp] at h201
    · rw [if_neg htr] at h
      split at h
      · injection h with h1 _
        rw [← h1] at h201
        simp [errorResp] at h201
      · split at h
        · injection h with h1 _
          rw [← h1] at h201
          simp [errorResp] at h201
        · split at h
          all_goals try (injection h with h1 h9; rw [← h1] at h201; simp [invalidDataResp, errorResp] at h201)
          split at h
          · injection h with h1 _
            rw [← h1] at h201
            simp [errorResp] at h201
          · split at h
            · injection h with h1 _
              rw [← h1] at h201
              simp [invalidDataResp, errorResp] at h201
            · simp only [if_true] at h
              injection h with h1 h2
              rw [← h2]
              simp [List.map_append]

theorem completed_policy_witness :
    ((update_todo sampleStore 1
        (some (JVal.jobj [("completed", JVal.jstr "yes")])) true).1.status =
          400 ∧
      (update_todo sampleStore 1
        (some (JVal.jobj [("completed", JVal.jstr "yes")])) true).2 =
          sampleStore) ∧
    (create_todo sampleStore
        (some (JVal.jobj [("title", JVal.jstr "A"),
          ("completed", JVal.jnum 7)])) true).2.todos.map Todo.completed =
      sampleStore.todos.map Todo.completed ++
        [((JVal.jobj [("title", JVal.jstr "A"),
          ("completed", JVal.jnum 7)]).getKey "completed").getD
            (JVal.jbool false)] :=
  ⟨completed_policy.1 sampleStore 1 sampleTodo
      [("completed", JVal.jstr "yes")] (JVal.jstr "yes") rfl rfl rfl rfl,
    completed_policy.2 sampleStore
      [("title", JVal.jstr "A"), ("completed", JVal.jnum 7)] _ _ rfl rfl⟩

/-! Envelope shape of the endpoint responses. -/

/-- Exactly one of the `data`/`error` envelope keys is present. -/
def exactlyOneKey (r : Response) : Prop :=
  (r.data.isSome = true ∧ r.error = none) ∨
  (r.data = none ∧ r.error.isSome = true)

/-- The `error` key is never present alongside `success: true`. -/
def errorConsistent (r : Response) : Prop :=
  r.success = true → r.error = none

theorem get_todos_envelope (s : Store) (dbOk : Bool) :
    exactlyOneKey (get_todos s dbOk) ∧ errorConsistent (get_todos s dbOk) := by
  cases dbOk <;>
    simp [get_todos, exactlyOneKey, errorConsistent, errorResp]

theorem get_todo_envelope (s : Store) (todo_id : Nat) (dbOk : Bool) :
    exactlyOneKey (get_todo s todo_id dbOk) ∧
    errorConsistent (get_todo s todo_id dbOk) := by
  cases dbOk
  · simp [get_todo, exactlyOneKey, errorConsistent, errorResp]
  · unfold get_todo
    cases findTodo s todo_id <;>
      simp [exactlyOneKey, errorConsistent, notFoundResp, errorResp]

theorem create_resp_envelope (s : Store) (body : Option JVal) (dbOk : Bool)
    (r : Response) (s2 : Store) (h : create_todo s body dbOk = (r, s2)) :
    exactlyOneKey r ∧ errorConsistent r := by
  unfold create_todo at h
  split at h
  · injection h with h1 h2
    subst h1
    simp [exactlyOneKey, errorConsistent, noDataResp, errorResp]
  · split at h
    · injection h with h1 h2
      subst h1
      simp [exactlyOneKey, errorConsistent, noDataResp, errorResp]
    · split at h
      all_goals try (injection h with h1 h2; subst h1; simp [exactlyOneKey, errorConsistent, invalidDataResp, errorResp])
      split at h
      · injection h with h1 h2
        subst h1
        simp [exactlyOneKey, errorConsistent, errorResp]
      · split at h
        · injection h with h1 h2
          subst h1
          simp [exactlyOneKey, errorConsistent, errorResp]
        · split at h
          all_goals try (injection h with h1 h2; subst h1; simp [exactlyOneKey, errorConsistent, invalidDataResp, errorResp])
          split at h
          · injection h with h1 h2
            subst h1
            simp [exactlyOneKey, errorConsistent, errorResp]
          · split at h
            · injection h with h1 h2
              subst h1
              simp [exactlyOneKey, errorConsistent, invalidDataResp, errorResp]
            · split at h
              · injection h with h1 h2
                subst h1
                simp [exactlyOneKey, errorConsistent]
              · injection h with h1 h2
                subst h1
                simp [exactlyOneKey, errorConsistent, errorResp]

theorem update_resp_envelope (s : Store) (todo_id : Nat) (body : Option JVal)
    (dbOk : Bool) (r : Response) (s2 : Store)
    (h : update_todo s todo_id body dbOk = (r, s2)) :
    exactlyOneKey r ∧ errorConsistent r := by
  unfold update_todo at h
  split at h
  · split at h
    · injection h with h1 h2
      subst h1
      simp [exactlyOneKey, errorConsistent, notFoundResp, errorResp]
    · split at h
      · injection h with h1 h2
        subst h1
        simp [exactlyOneKey, errorConsistent, noDataResp, errorResp]
      · split at h
        · injection h with h1 h2
          subst h1
          simp [exactlyOneKey, errorConsistent, noDataResp, errorResp]
        · split at h
          all_goals try (injection h with h1 h2; subst h1; simp [exactlyOneKey, errorConsistent, invalidDataResp, errorResp])
          · split at h
            · rename_i r0 heq0
              injection h with h1 h2
              subst h1
              rcases updateFields_error_cases _ _ _ heq0 with he | he | he <;>
                subst he <;>
                simp [exactlyOneKey, errorConsistent, invalidDataResp,
                  errorResp]
            · injection h with h1 h2
              subst h1
              simp [exactlyOneKey, errorConsistent]
          · split at h
            · injection h with h1 h2
              subst h1
              simp [exactlyOneKey, errorConsistent, invalidDataResp, errorResp]
            · injection h with h1 h2
              subst h1
              simp [exactlyOneKey, errorConsistent]
          · split at h
            · injection h with h1 h2
              subst h1
              simp [exactlyOneKey, errorConsistent, invalidDataResp, errorResp]
            · injection h with h1 h2
              subst h1
              simp [exactlyOneKey, errorConsistent]
  · injection h with h1 h2
    subst h1
    simp [exactlyOneKey, errorConsistent, errorResp]

theorem delete_resp_envelope (s : Store) (todo_id : Nat) (dbOk : Bool)
    (r : Response) (s2 : Store) (h : delete_todo s todo_id dbOk = (r, s2)) :
    (exactlyOneKey r ∨
      (r.status = 200 ∧ r.success = true ∧ r.data = none ∧ r.error = none)) ∧
    errorConsistent r := by
  unfold delete_todo at h
  split at h
  · split at h
    · injection h with h1 h2
      subst h1
      refine ⟨Or.inl ?_, ?_⟩ <;>
        simp [exactlyOneKey, errorConsistent, notFoundResp, errorResp]
    · injection h with h1 h2
      subst h1
      exact ⟨Or.inr ⟨rfl, rfl, rfl, rfl⟩, fun _ => rfl⟩
  · injection h with h1 h2
    subst h1
    refine ⟨Or.inl ?_, ?_⟩ <;>
      simp [exactlyOneKey, errorConsistent, errorResp]

/-- C3 counterexample: the success response of delete carries neither a
`data` key nor an `error` key, so "exactly one of data/error" fails on a
terminal delete response. -/
theorem delete_200_neither_key :
    (delete_todo sampleStore 1 true).1.status = 200 ∧
    (delete_todo sampleStore 1 true).1.data = none ∧
    (delete_todo sampleStore 1 true).1.error = none :=
  ⟨rfl, rfl, rfl⟩

/-- C3 (amended): on list, get, create and update exactly one of the
`data`/`error` keys is present; on delete this holds for every response
except the 200 success, which carries neither; `error` is never present
alongside `success: true` on any of the five endpoints. -/
theorem envelope_policy (s : Store) (todo_id : Nat) (body : Option JVal)
    (dbOk : Bool) :
    (exactlyOneKey (get_todos s dbOk) ∧ errorConsistent (get_todos s dbOk)) ∧
    (exactlyOneKey (get_todo s todo_id dbOk) ∧
      errorConsistent (get_todo s todo_id dbOk)) ∧
    (exactlyOneKey (create_todo s body dbOk).1 ∧
      errorConsistent (create_todo s body dbOk).1) ∧
    (exactlyOneKey (update_todo s todo_id body dbOk).1 ∧
      errorConsistent (update_todo s todo_id body dbOk).1) ∧
    ((exactlyOneKey (delete_todo s todo_id dbOk).1 ∨
        ((delete_todo s todo_id dbOk).1.status = 200 ∧
         (delete_todo s todo_id dbOk).1.success = true ∧
         (delete_todo s todo_id dbOk).1.data = none ∧
         (delete_todo s todo_id dbOk).1.error = none)) ∧
      errorConsistent (delete_todo s todo_id dbOk).1) :=
  ⟨get_todos_envelope s dbOk, get_todo_envelope s todo_id dbOk,
    create_resp_envelope s body dbOk _ _ rfl,
    update_resp_envelope s todo_id body dbOk _ _ rfl,
    delete_resp_envelope s todo_id dbOk _ _ rfl⟩

/-- Any update outcome other than the 200 commit leaves the store as it
was. -/
theorem update_ne200_unchanged (s : Store) (todo_id : Nat)
    (body : Option JVal) (dbOk : Bool) (r : Response) (s2 : Store)
    (h : update_todo s todo_id body dbOk = (r, s2)) (hn : r.status ≠ 200) :
    s2 = s := by
  unfold update_todo at h
  split at h
  · split at h
    · injection h with h1 h2; exact h2.symm
    · split at h
      · injection h with h1 h2; exact h2.symm
      · split at h
        · injection h with h1 h2; exact h2.symm
        · split at h
          all_goals try (injection h with h1 h2; exact h2.symm)
          · split at h
            · injection h with h1 h2; exact h2.symm
            · injection h with h1 h2
              rw [← h1] at hn
              simp at hn
          · split at h
            · injection h with h1 h2; exact h2.symm
            · injection h with h1 h2; exact h2.symm
          · split at h
            · injection h with h1 h2; exact h2.symm
            · injection h with h1 h2; exact h2.symm
  · injection h with h1 h2; exact h2.symm

/-- C8: a successful update changes only the fields present in the request
body: on a JSON-object body only the targeted record is rewritten, every
absent field keeps its stored value and `id`/`created_at` never change; a
200 arising from a truthy non-object body (Python `in` finds none of the
three keys, so every block is skipped) writes nothing at all; and any
non-200 outcome leaves the store untouched. -/
theorem update_frame (s : Store) (todo_id : Nat) (body : Option JVal) :
    (∀ (dbOk : Bool) (r : Response) (s2 : Store),
      update_todo s todo_id body dbOk = (r, s2) → r.status ≠ 200 → s2 = s) ∧
    (∀ fs : List (String × JVal), body = some (JVal.jobj fs) →
      (update_todo s todo_id body true).1.status = 200 →
      ∃ old new, findTodo s todo_id = some old ∧
        (update_todo s todo_id body true).2.todos =
          s.todos.map (fun t => if t.id = todo_id then new else t) ∧
        new.id = old.id ∧ new.created_at = old.created_at ∧
        ((JVal.jobj fs).getKey "title" = none → new.title = old.title) ∧
        ((JVal.jobj fs).getKey "description" = none →
          new.description = old.description) ∧
        ((JVal.jobj fs).getKey "completed" = none →
          new.completed = old.completed)) ∧
    ((∀ fs : List (String × JVal), body ≠ some (JVal.jobj fs)) →
      (update_todo s todo_id body true).1.status = 200 →
      (update_todo s todo_id body true).2 = s) := by
  refine ⟨?_, ?_, ?_⟩
  · exact fun dbOk r s2 h hn =>
      update_ne200_unchanged s todo_id body dbOk r s2 h hn
  · intro fs hbody h200
    subst hbody
    cases hf : findTodo s todo_id with
    | none =>
      exfalso
      have h404 :
          (update_todo s todo_id (some (JVal.jobj fs)) true).1.status =
            404 := by
        unfold update_todo
        rw [hf]
        rfl
      rw [h404] at h200
      exact absurd h200 (by decide)
    | some old =>
      by_cases htr : (JVal.jobj fs).truthy = false
      · exfalso
        have h400 :
            (update_todo s todo_id (some (JVal.jobj fs)) true).1.status =
              400 := by
          simp only [update_todo, hf, htr]
          rfl
        rw [h400] at h200
        exact absurd h200 (by decide)
      · cases hch : updateFields (JVal.jobj fs) old with
        | error r0 =>
          exfalso
          have heq :
              (update_todo s todo_id (some (JVal.jobj fs)) true).1 =
                r0 := by
            simp only [update_todo, hf, if_neg htr, hch]
            rfl
          rw [heq] at h200
          have h400 : r0.status = 400 := by
            rcases updateFields_error_cases _ _ _ hch with he | he | he <;>
              subst he <;> rfl
          rw [h400] at h200
          exact absurd h200 (by decide)
        | ok newT =>
          obtain ⟨e1, e2, e3, e4, e5, _, _, _⟩ :=
            updateFields_ok (JVal.jobj fs) old newT hch
          refine ⟨old, newT, rfl, ?_, e1, e2, e3, e4, e5⟩
          have hu :
              (update_todo s todo_id (some (JVal.jobj fs)) true).2 =
                { s with todos := s.todos.map (fun t => if t.id = todo_id then newT else t) } := by
            simp only [update_todo, hf, if_neg htr, hch]
            rfl
          rw [hu]
  · intro hnot h200
    cases body with
    | none =>
      exfalso
      cases hf : findTodo s todo_id with
      | none =>
        have h404 : (update_todo s todo_id none true).1.status = 404 := by
          unfold update_todo
          rw [hf]
          rfl
        rw [h404] at h200
        exact absurd h200 (by decide)
      | some old =>
        have h400 : (update_todo s todo_id none true).1.status = 400 := by
          unfold update_todo
          rw [hf]
          rfl
        rw [h400] at h200
        exact absurd h200 (by decide)
    | some data =>
      cases hf : findTodo s todo_id with
      | none =>
        show (update_todo s todo_id (some data) true).2 = s
        unfold update_todo
        rw [hf]
        rfl
      | some old =>
        by_cases htr : data.truthy = false
        · show (update_todo s todo_id (some data) true).2 = s
          simp only [update_todo, hf, htr]
          rfl
        · cases data with
          | jobj fs => exact absurd rfl (hnot fs)
          | jnull => exact absurd rfl htr
          | jbool b =>
            show (update_todo s todo_id (some (JVal.jbool b)) true).2 = s
            simp only [update_todo, hf, if_neg htr]
            rfl
          | jnum n =>
            show (update_todo s todo_id (some (JVal.jnum n)) true).2 = s
            simp only [update_todo, hf, if_neg htr]
            rfl
          | jstr str =>
            show (update_todo s todo_id (some (JVal.jstr str)) true).2 = s
            by_cases hkey : (strContainsKey str "title" ||
                strContainsKey str "description" ||
                strContainsKey str "completed") = true
            · simp only [update_todo, hf, if_neg htr, if_pos hkey]
              rfl
            · simp only [update_todo, hf, if_neg htr, if_neg hkey]
              rfl
          | jarr xs =>
            show (update_todo s todo_id (some (JVal.jarr xs)) true).2 = s
            by_cases hkey : (jarrHasKey xs "title" ||
                jarrHasKey xs "description" ||
                jarrHasKey xs "completed") = true
            · simp only [update_todo, hf, if_neg htr, if_pos hkey]
              rfl
            · simp only [update_todo, hf, if_neg htr, if_neg hkey]
              rfl

theorem update_frame_witness :
    (∃ old new,
      findTodo sampleStore 1 = some old ∧
      (update_todo sampleStore 1
        (some (JVal.jobj [("completed", JVal.jbool true)])) true).2.todos =
        sampleStore.todos.map (fun t => if t.id = 1 then new else t) ∧
      new.id = old.id ∧ new.created_at = old.created_at ∧
      ((JVal.jobj [("completed", JVal.jbool true)]).getKey "title" = none →
        new.title = old.title) ∧
      ((JVal.jobj [("completed", JVal.jbool true)]).getKey "description" =
        none → new.description = old.description) ∧
      ((JVal.jobj [("completed", JVal.jbool true)]).getKey "completed" =
        none → new.completed = old.completed)) ∧
    (update_todo sampleStore 1 (some (JVal.jstr "hello")) true).1.status =
      200 ∧
    (update_todo sampleStore 1 (some (JVal.jstr "hello")) true).2 =
      sampleStore :=
  ⟨(update_frame sampleStore 1
      (some (JVal.jobj [("completed", JVal.jbool true)]))).2.1
      [("completed", JVal.jbool true)] rfl rfl,
    rfl,
    (update_frame sampleStore 1 (some (JVal.jstr "hello"))).2.2
      (fun _ h => JVal.noConfusion (Option.some.inj h)) rfl⟩

/-! Branch equations of `create_todo` (with the database available). -/

theorem create_falsy_body (s : Store) (data : JVal)
    (h : data.truthy = false) :
    create_todo s (some data) true = (noDataResp, s) := by
  simp only [create_todo, if_pos h]

theorem create_nonobj_body (s : Store) (data : JVal)
    (htv : data.truthy = true) (hobj : data.isObj = false) :
    create_todo s (some data) true = (invalidDataResp, s) := by
  cases data with
  | jnull => simp [JVal.truthy] at htv
  | jobj fs => simp [JVal.isObj] at hobj
  | jbool b => simp only [create_todo, htv]; rfl
  | jnum n => simp only [create_todo, htv]; rfl
  | jstr str => simp only [create_todo, htv]; rfl
  | jarr xs => simp only [create_todo, htv]; rfl

theorem create_title_absent (s : Store) (fs : List (String × JVal))
    (htr : ¬(JVal.jobj fs).truthy = false)
    (hk : (JVal.jobj fs).getKey "title" = none) :
    create_todo s (some (JVal.jobj fs)) true =
      (errorResp 400 "Title is required and cannot be empty", s) := by
  simp only [create_todo, if_neg htr, hk]

theorem create_title_falsy (s : Store) (fs : List (String × JVal))
    (tv : JVal) (htr : ¬(JVal.jobj fs).truthy = false)
    (hk : (JVal.jobj fs).getKey "title" = some tv)
    (h0 : tv.truthy = false) :
    create_todo s (some (JVal.jobj fs)) true =
      (errorResp 400 "Title is required and cannot be empty", s) := by
  simp only [create_todo, if_neg htr, hk, if_pos h0]

theorem create_title_nonstr (s : Store) (fs : List (String × JVal))
    (tv : JVal) (htr : ¬(JVal.jobj fs).truthy = false)
    (hk : (JVal.jobj fs).getKey "title" = some tv)
    (htv : tv.truthy = true) (hnstr : tv.isStr = false) :
    create_todo s (some (JVal.jobj fs)) true = (invalidDataResp, s) := by
  cases tv with
  | jstr t => simp [JVal.isStr] at hnstr
  | jnull => simp [JVal.truthy] at htv
  | jbool b => simp only [create_todo, if_neg htr, hk, htv]; rfl
  | jnum n => simp only [create_todo, if_neg htr, hk, htv]; rfl
  | jarr xs => simp only [create_todo, if_neg htr, hk, htv]; rfl
  | jobj fs2 => simp only [create_todo, if_neg htr, hk, htv]; rfl

theorem create_title_strip_empty (s : Store) (fs : List (String × JVal))
    (t : String) (htr : ¬(JVal.jobj fs).truthy = false)
    (hk : (JVal.jobj fs).getKey "title" = some (JVal.jstr t))
    (htv : (JVal.jstr t).truthy = true) (hst : pyStrip t = "") :
    create_todo s (some (JVal.jobj fs)) true =
      (errorResp 400 "Title is required and cannot be empty", s) := by
  simp only [create_todo, if_neg htr, hk, htv]
  rw [if_pos hst]
  rfl

theorem create_desc_raises (s : Store) (fs : List (String × JVal))
    (t : String) (htr : ¬(JVal.jobj fs).truthy = false)
    (hk : (JVal.jobj fs).getKey "title" = some (JVal.jstr t))
    (htv : (JVal.jstr t).truthy = true) (hst : ¬pyStrip t = "")
    (hdd : createDescValue ((JVal.jobj fs).getKey "description") = none) :
    create_todo s (some (JVal.jobj fs)) true = (invalidDataResp, s) := by
  simp only [create_todo, if_neg htr, hk, htv, if_neg hst, hdd]
  rfl

/-- The record constructed by `create_todo` at commit time (app.py lines
90 to 94), named for reuse in statements. -/
def createdTodo (s : Store) (fs : List (String × JVal)) (t dsc : String) :
    Todo :=
  { id := s.nextId, title := pyStrip t, description := dsc,
    completed := (((JVal.jobj fs).getKey "completed").getD (JVal.jbool false)),
    created_at := s.clock }

theorem create_commit (s : Store) (fs : List (String × JVal))
    (t : String) (dsc : String) (htr : ¬(JVal.jobj fs).truthy = false)
    (hk : (JVal.jobj fs).getKey "title" = some (JVal.jstr t))
    (htv : (JVal.jstr t).truthy = true) (hst : ¬pyStrip t = "")
    (hdd : createDescValue ((JVal.jobj fs).getKey "description") =
      some dsc) :
    create_todo s (some (JVal.jobj fs)) true =
      ({ status := 201, success := true,
         data := some (createdTodo s fs t dsc).to_dict, count := none,
         message := some "Todo created successfully", error := none },
       { s with todos := s.todos ++ [createdTodo s fs t dsc],
                nextId := s.nextId + 1, clock := s.clock + 1 }) := by
  simp only [create_todo, if_neg htr, hk, htv, if_neg hst, hdd]
  rfl

/-- The create validation rule as the amended C7 states it: reject when the
body is absent or parses to null, is falsy or not a JSON object, when its
title is absent, falsy, a non-string, or empty after stripping, or when a
present description value is not a string. -/
def createRejectSpec : Option JVal → Bool
  | none => true
  | some (JVal.jobj fs) =>
    match fs.lookup "title" with
    | none => true
    | some tv =>
      !tv.truthy ||
      (match tv with
       | JVal.jstr t => pyStrip t == ""
       | _ => true) ||
      (match fs.lookup "description" with
       | none => false
       | some dv => !dv.isStr)
  | some _ => true

/-- C7 counterexample: a body that is an object whose title is present and
neither missing nor empty after trimming, namely the number 5, still gets
400 ("Invalid request data"), where the claim promises 201. -/
theorem create_numeric_title_400 :
    (create_todo emptyStore (some (JVal.jobj [("title", JVal.jnum 5)]))
      true).1.status = 400 ∧
    (create_todo emptyStore (some (JVal.jobj [("title", JVal.jnum 5)]))
      true).1.error = some "Invalid request data" :=
  ⟨rfl, rfl⟩

/-- C7 (amended): create answers 400 exactly when `createRejectSpec` holds
of the parsed body; when it does not, create answers 201 and appends the
record built from the stripped title, the description (defaulting to ""
when absent) and the request `completed` value (defaulting to `false` when
absent). -/
theorem create_characterization (s : Store) (body : Option JVal) :
    ((create_todo s body true).1.status = 400 ↔
      createRejectSpec body = true) ∧
    (createRejectSpec body = false →
      ∃ fs t dsc, body = some (JVal.jobj fs) ∧
        (JVal.jobj fs).getKey "title" = some (JVal.jstr t) ∧
        createDescValue ((JVal.jobj fs).getKey "description") = some dsc ∧
        ((JVal.jobj fs).getKey "description" = none → dsc = "") ∧
        create_todo s body true =
          ({ status := 201, success := true,
             data := some (createdTodo s fs t dsc).to_dict, count := none,
             message := some "Todo created successfully", error := none },
           { s with todos := s.todos ++ [createdTodo s fs t dsc],
                    nextId := s.nextId + 1, clock := s.clock + 1 })) := by
  constructor
  · cases body with
    | none => exact ⟨fun _ => rfl, fun _ => rfl⟩
    | some data =>
      by_cases htr0 : data.truthy = false
      · have hsp : createRejectSpec (some data) = true := by
          cases data with
          | jobj fs =>
            cases fs with
            | nil => rfl
            | cons p ps => simp [JVal.truthy] at htr0
          | jnull => rfl
          | jbool b => rfl
          | jnum n => rfl
          | jstr str => rfl
          | jarr xs => rfl
        have h1 := create_falsy_body s data htr0
        rw [h1, hsp]
        simp [noDataResp, errorResp]
      · have htv0 : data.truthy = true := by
          revert htr0; cases data.truthy <;> simp
        cases data with
        | jnull => simp [JVal.truthy] at htv0
        | jbool b =>
          have h1 := create_nonobj_body s (JVal.jbool b) htv0 rfl
          rw [h1]
          simp [invalidDataResp, errorResp, createRejectSpec]
        | jnum n =>
          have h1 := create_nonobj_body s (JVal.jnum n) htv0 rfl
          rw [h1]
          simp [invalidDataResp, errorResp, createRejectSpec]
        | jstr str =>
          have h1 := create_nonobj_body s (JVal.jstr str) htv0 rfl
          rw [h1]
          simp [invalidDataResp, errorResp, createRejectSpec]
        | jarr xs =>
          have h1 := create_nonobj_body s (JVal.jarr xs) htv0 rfl
          rw [h1]
          simp [invalidDataResp, errorResp, createRejectSpec]
        | jobj fs =>
          cases hk : (JVal.jobj fs).getKey "title" with
          | none =>
            have hk' : List.lookup "title" fs = none := hk
            have h1 := create_title_absent s fs htr0 hk
            rw [h1]
            simp [createRejectSpec, hk', errorResp]
          | some tv =>
            have hk' : List.lookup "title" fs = some tv := hk
            by_cases h0 : tv.truthy = false
            · have h1 := create_title_falsy s fs tv htr0 hk h0
              rw [h1]
              simp [createRejectSpec, hk', h0, errorResp]
            · have htv : tv.truthy = true := by
                revert h0; cases tv.truthy <;> simp
              cases tv with
              | jnull => simp [JVal.truthy] at htv
              | jbool b =>
                have h1 := create_title_nonstr s fs (JVal.jbool b) htr0 hk
                  htv rfl
                rw [h1]
                simp [createRejectSpec, hk', invalidDataResp, errorResp]
              | jnum n =>
                have h1 := create_title_nonstr s fs (JVal.jnum n) htr0 hk
                  htv rfl
                rw [h1]
                simp [createRejectSpec, hk', invalidDataResp, errorResp]
              | jarr xs =>
                have h1 := create_title_nonstr s fs (JVal.jarr xs) htr0 hk
                  htv rfl
                rw [h1]
                simp [createRejectSpec, hk', invalidDataResp, errorResp]
              | jobj f2 =>
                have h1 := create_title_nonstr s fs (JVal.jobj f2) htr0 hk
                  htv rfl
                rw [h1]
                simp [createRejectSpec, hk', invalidDataResp, errorResp]
              | jstr t =>
                by_cases hstz : pyStrip t = ""
                · have h1 := create_title_strip_empty s fs t htr0 hk htv hstz
                  rw [h1]
                  simp [createRejectSpec, hk', htv, hstz, errorResp]
                · cases hdd :
                    createDescValue ((JVal.jobj fs).getKey "description") with
                  | none =>
                    have h1 := create_desc_raises s fs t htr0 hk htv hstz hdd
                    rw [h1]
                    have hsp : createRejectSpec (some (JVal.jobj fs)) =
                        true := by
                      simp only [createRejectSpec, hk']
                      cases hd : List.lookup "description" fs with
                      | none =>
                        exfalso
                        have h2 : createDescValue
                            (List.lookup "description" fs) = none := hdd
                        rw [hd] at h2
                        exact Option.noConfusion h2
                      | some dv =>
                        have hdd2 : createDescValue (some dv) = none := by
                          have h2 : createDescValue
                              (List.lookup "description" fs) = none := hdd
                          rw [hd] at h2
                          exact h2
                        cases dv with
                        | jstr d2 => simp [createDescValue] at hdd2
                        | jnull => simp [JVal.isStr]
                        | jbool b2 => simp [JVal.isStr]
                        | jnum n2 => simp [JVal.isStr]
                        | jarr xs2 => simp [JVal.isStr]
                        | jobj f3 => simp [JVal.isStr]
                    rw [hsp]
                    simp [invalidDataResp, errorResp]
                  | some dsc =>
                    have h1 := create_commit s fs t dsc htr0 hk htv hstz hdd
                    rw [h1]
                    have hsp : createRejectSpec (some (JVal.jobj fs)) =
                        false := by
                      simp only [createRejectSpec, hk']
                      cases hd : List.lookup "description" fs with
                      | none => simp [htv, hstz]
                      | some dv =>
                        have hdd2 : createDescValue (some dv) = some dsc := by
                          have h2 : createDescValue
                              (List.lookup "description" fs) = some dsc := hdd
                          rw [hd] at h2
                          exact h2
                        cases dv with
                        | jstr d2 => simp [htv, hstz, JVal.isStr]
                        | jnull => simp [createDescValue] at hdd2
                        | jbool b2 => simp [createDescValue] at hdd2
                        | jnum n2 => simp [createDescValue] at hdd2
                        | jarr xs2 => simp [createDescValue] at hdd2
                        | jobj f3 => simp [createDescValue] at hdd2
                    rw [hsp]
                    simp
  · intro hsp
    cases body with
    | none => simp [createRejectSpec] at hsp
    | some data =>
      cases data with
      | jnull => simp [createRejectSpec] at hsp
      | jbool b => simp [createRejectSpec] at hsp
      | jnum n => simp [createRejectSpec] at hsp
      | jstr str => simp [createRejectSpec] at hsp
      | jarr xs => simp [createRejectSpec] at hsp
      | jobj fs =>
        cases hk' : List.lookup "title" fs with
        | none => simp [createRejectSpec, hk'] at hsp
        | some tv =>
          simp only [createRejectSpec, hk', Bool.or_eq_false_iff] at hsp
          obtain ⟨⟨ha, hb⟩, hc⟩ := hsp
          have htv : tv.truthy = true := by
            revert ha; cases tv.truthy <;> simp
          cases tv with
          | jnull => simp [JVal.truthy] at htv
          | jbool b => simp at hb
          | jnum n => simp at hb
          | jarr xs => simp at hb
          | jobj f2 => simp at hb
          | jstr t =>
            have hst : ¬ pyStrip t = "" := by simpa using hb
            have hdd : ∃ dsc, createDescValue
                ((JVal.jobj fs).getKey "description") = some dsc := by
              show ∃ dsc, createDescValue
                (List.lookup "description" fs) = some dsc
              revert hc
              cases hd : List.lookup "description" fs with
              | none => intro hc; exact ⟨"", rfl⟩
              | some dv =>
                intro hc
                cases dv with
                | jstr d2 => exact ⟨pyStrip d2, rfl⟩
                | jnull => simp [JVal.isStr] at hc
                | jbool b2 => simp [JVal.isStr] at hc
                | jnum n2 => simp [JVal.isStr] at hc
                | jarr xs2 => simp [JVal.isStr] at hc
                | jobj f3 => simp [JVal.isStr] at hc
            obtain ⟨dsc, hdd⟩ := hdd
            have htr0 : ¬(JVal.jobj fs).truthy = false := by
              cases fs with
              | nil => simp [List.lookup] at hk'
              | cons p ps => simp [JVal.truthy]
            have hk : (JVal.jobj fs).getKey "title" =
                some (JVal.jstr t) := hk'
            refine ⟨fs, t, dsc, rfl, hk, hdd, ?_,
              create_commit s fs t dsc htr0 hk htv hst hdd⟩
            intro hdn
            have h2 : createDescValue
                ((JVal.jobj fs).getKey "description") = some "" := by
              rw [hdn]
              rfl
            injection h2.symm.trans hdd with h3
            exact h3.symm

theorem create_characterization_witness :
    ∃ fs t dsc,
      (some (JVal.jobj [("title", JVal.jstr " Hi ")]) : Option JVal) =
        some (JVal.jobj fs) ∧
      (JVal.jobj fs).getKey "title" = some (JVal.jstr t) ∧
      createDescValue ((JVal.jobj fs).getKey "description") = some dsc ∧
      ((JVal.jobj fs).getKey "description" = none → dsc = "") ∧
      create_todo emptyStore
        (some (JVal.jobj [("title", JVal.jstr " Hi ")])) true =
        ({ status := 201, success := true,
           data := some (createdTodo emptyStore fs t dsc).to_dict,
           count := none, message := some "Todo created successfully",
           error := none },
         { emptyStore with
             todos := emptyStore.todos ++ [createdTodo emptyStore fs t dsc],
             nextId := emptyStore.nextId + 1,
             clock := emptyStore.clock + 1 }) :=
  (create_characterization emptyStore
    (some (JVal.jobj [("title", JVal.jstr " Hi ")]))).2 rfl

/-- Any value `createDescValue` produces is the empty string or a stripped
string. -/
theorem createDescValue_shape (o : Option JVal) (d : String)
    (h : createDescValue o = some d) :
    d = "" ∨ ∃ str, d = pyStrip str := by
  cases o with
  | none =>
    injection h with h
    exact Or.inl h.symm
  | some v =>
    cases v with
    | jstr str =>
      injection h with h
      exact Or.inr ⟨str, h.symm⟩
    | jnull => exact Option.noConfusion h
    | jbool b => exact Option.noConfusion h
    | jnum n => exact Option.noConfusion h
    | jarr xs => exact Option.noConfusion h
    | jobj f2 => exact Option.noConfusion h

/-- Create either leaves the store alone or appends one record whose title
is a stripped string and whose description is empty or stripped. -/
theorem create_store_shape (s : Store) (body : Option JVal) (dbOk : Bool)
    (r : Response) (s2 : Store) (h : create_todo s body dbOk = (r, s2)) :
    s2 = s ∨ ∃ new, s2.todos = s.todos ++ [new] ∧
      (∃ t, new.title = pyStrip t) ∧
      (new.description = "" ∨ ∃ str, new.description = pyStrip str) := by
  unfold create_todo at h
  split at h
  · injection h with h1 h2; exact Or.inl h2.symm
  · split at h
    · injection h with h1 h2; exact Or.inl h2.symm
    · split at h
      all_goals try (injection h with h1 h2; exact Or.inl h2.symm)
      split at h
      · injection h with h1 h2; exact Or.inl h2.symm
      · split at h
        · injection h with h1 h2; exact Or.inl h2.symm
        · split at h
          all_goals try (injection h with h1 h2; exact Or.inl h2.symm)
          split at h
          · injection h with h1 h2; exact Or.inl h2.symm
          · split at h
            · injection h with h1 h2; exact Or.inl h2.symm
            · rename_i dsc heqd
              split at h
              · injection h with h1 h2
                rw [← h2]
                exact Or.inr ⟨_, rfl, ⟨_, rfl⟩,
                  createDescValue_shape _ _ heqd⟩
              · injection h with h1 h2; exact Or.inl h2.symm

/-- Update either leaves the store alone or maps the targeted id to the
result of `updateFields` on the found record. -/
theorem update_store_shape (s : Store) (todo_id : Nat) (body : Option JVal)
    (dbOk : Bool) (r : Response) (s2 : Store)
    (h : update_todo s todo_id body dbOk = (r, s2)) :
    s2 = s ∨ ∃ fs old new, findTodo s todo_id = some old ∧
      updateFields (JVal.jobj fs) old = Except.ok new ∧
      s2.todos = s.todos.map (fun t => if t.id = todo_id then new else t) := by
  unfold update_todo at h
  split at h
  · split at h
    · injection h with h1 h2; exact Or.inl h2.symm
    · rename_i todo hfind
      split at h
      · injection h with h1 h2; exact Or.inl h2.symm
      · split at h
        · injection h with h1 h2; exact Or.inl h2.symm
        · split at h
          all_goals try (injection h with h1 h2; exact Or.inl h2.symm)
          · rename_i fs h9
            split at h
            · injection h with h1 h2; exact Or.inl h2.symm
            · rename_i newT hch
              injection h with h1 h2
              refine Or.inr ⟨fs, todo, newT, hfind, hch, ?_⟩
              rw [← h2]
          · split at h
            · injection h with h1 h2; exact Or.inl h2.symm
            · injection h with h1 h2; exact Or.inl h2.symm
          · split at h
            · injection h with h1 h2; exact Or.inl h2.symm
            · injection h with h1 h2; exact Or.inl h2.symm
  · injection h with h1 h2; exact Or.inl h2.symm

/-- Every stored title and description is already stripped. -/
def StoreTrimmed (s : Store) : Prop :=
  ∀ t ∈ s.todos, pyStrip t.title = t.title ∧
    pyStrip t.description = t.description

/-- C6: create and update always strip title and description before
storing them, so a store whose records are stripped stays stripped under
both operations; and the emptiness check runs on the stripped title: on
create the "Title is required" error appears exactly when the stripped
title is empty, and on update a present title that strips to empty is
answered with "Title cannot be empty" and no commit. -/
theorem trim_on_write (s : Store) (hs : StoreTrimmed s) :
    (∀ (body : Option JVal) (dbOk : Bool),
      StoreTrimmed (create_todo s body dbOk).2) ∧
    (∀ (todo_id : Nat) (body : Option JVal) (dbOk : Bool),
      StoreTrimmed (update_todo s todo_id body dbOk).2) ∧
    (∀ (fs : List (String × JVal)) (t : String),
      (JVal.jobj fs).getKey "title" = some (JVal.jstr t) →
      ((create_todo s (some (JVal.jobj fs)) true).1.error =
          some "Title is required and cannot be empty" ↔ pyStrip t = "")) ∧
    (∀ (todo_id : Nat) (todo : Todo) (fs : List (String × JVal))
      (t : String), findTodo s todo_id = some todo →
      (JVal.jobj fs).getKey "title" = some (JVal.jstr t) →
      pyStrip t = "" →
      update_todo s todo_id (some (JVal.jobj fs)) true =
        (errorResp 400 "Title cannot be empty", s)) := by
  refine ⟨?_, ?_, ?_, ?_⟩
  · intro body dbOk
    obtain ⟨r, s2, hrs⟩ : ∃ r s2, create_todo s body dbOk = (r, s2) :=
      ⟨_, _, rfl⟩
    have hgoal : (create_todo s body dbOk).2 = s2 := by rw [hrs]
    rw [hgoal]
    rcases create_store_shape s body dbOk r s2 hrs with
      hE | ⟨new, hT, ⟨t0, hTt⟩, hD⟩
    · rw [hE]; exact hs
    · intro td htd
      rw [hT] at htd
      rcases List.mem_append.mp htd with hin | hnew
      · exact hs td hin
      · have hteq : td = new := by simpa using hnew
        subst hteq
        constructor
        · rw [hTt]; exact pyStrip_idem t0
        · rcases hD with hD | ⟨str, hD⟩
          · rw [hD]; exact pyStrip_empty
          · rw [hD]; exact pyStrip_idem str
  · intro todo_id body dbOk
    obtain ⟨r, s2, hrs⟩ :
        ∃ r s2, update_todo s todo_id body dbOk = (r, s2) := ⟨_, _, rfl⟩
    have hgoal : (update_todo s todo_id body dbOk).2 = s2 := by rw [hrs]
    rw [hgoal]
    rcases update_store_shape s todo_id body dbOk r s2 hrs with
      hE | ⟨fs, old, new, hfind, hch, hT⟩
    · rw [hE]; exact hs
    · intro td htd
      rw [hT] at htd
      rcases List.mem_map.mp htd with ⟨a, ha, hfa⟩
      have hold := hs old (List.mem_of_find?_eq_some hfind)
      by_cases hid : a.id = todo_id
      · rw [if_pos hid] at hfa
        obtain ⟨_, _, _, _, _, h6, h7, _⟩ :=
          updateFields_ok (JVal.jobj fs) old new hch
        constructor
        · rcases h6 with h6 | ⟨str, h6⟩
          · rw [← hfa, h6]; exact hold.1
          · rw [← hfa, h6]; exact pyStrip_idem str
        · rcases h7 with h7 | h7 | ⟨str, h7⟩
          · rw [← hfa, h7]; exact hold.2
          · rw [← hfa, h7]; exact pyStrip_empty
          · rw [← hfa, h7]; exact pyStrip_idem str
      · rw [if_neg hid] at hfa
        exact hfa ▸ hs a ha
  · intro fs t hk
    have hk' : List.lookup "title" fs = some (JVal.jstr t) := hk
    have htr0 : ¬(JVal.jobj fs).truthy = false := by
      cases fs with
      | nil => simp [List.lookup] at hk'
      | cons p ps => simp [JVal.truthy]
    constructor
    · intro he
      by_cases hstz : pyStrip t = ""
      · exact hstz
      · exfalso
        have htv : (JVal.jstr t).truthy = true := by
          simp only [JVal.truthy, decide_eq_true_eq, ne_eq]
          intro h0
          exact hstz (by rw [h0]; rfl)
        cases hdd :
            createDescValue ((JVal.jobj fs).getKey "description") with
        | none =>
          have h1 := create_desc_raises s fs t htr0 hk htv hstz hdd
          rw [h1] at he
          simp [invalidDataResp, errorResp] at he
        | some dsc =>
          have h1 := create_commit s fs t dsc htr0 hk htv hstz hdd
          rw [h1] at he
          simp at he
    · intro hstz
      by_cases h0 : t = ""
      · subst h0
        have h1 := create_title_falsy s fs (JVal.jstr "") htr0 hk rfl
        rw [h1]
        rfl
      · have htv : (JVal.jstr t).truthy = true := by
          simp [JVal.truthy, h0]
        have h1 := create_title_strip_empty s fs t htr0 hk htv hstz
        rw [h1]
        rfl
  · intro todo_id todo fs t hfind hk hstz
    have hk' : List.lookup "title" fs = some (JVal.jstr t) := hk
    have htr0 : ¬(JVal.jobj fs).truthy = false := by
      cases fs with
      | nil => simp [List.lookup] at hk'
      | cons p ps => simp [JVal.truthy]
    have hat : applyTitle (JVal.jobj fs) todo =
        Except.error (errorResp 400 "Title cannot be empty") := by
      unfold applyTitle
      rw [hk]
      by_cases h0 : t = ""
      · subst h0; rfl
      · have htv : (JVal.jstr t).truthy = true := by
          simp [JVal.truthy, h0]
        simp only [htv]
        rw [if_pos hstz]
        rfl
    have hch : updateFields (JVal.jobj fs) todo =
        Except.error (errorResp 400 "Title cannot be empty") := by
      unfold updateFields
      rw [hat]
      rfl
    simp only [update_todo, hfind, if_neg htr0, hch]
    rfl

theorem trim_on_write_witness :
    (∀ (body : Option JVal) (dbOk : Bool),
      StoreTrimmed (create_todo emptyStore body dbOk).2) ∧
    (∀ (todo_id : Nat) (body : Option JVal) (dbOk : Bool),
      StoreTrimmed (update_todo emptyStore todo_id body dbOk).2) ∧
    (∀ (fs : List (String × JVal)) (t : String),
      (JVal.jobj fs).getKey "title" = some (JVal.jstr t) →
      ((create_todo emptyStore (some (JVal.jobj fs)) true).1.error =
          some "Title is required and cannot be empty" ↔ pyStrip t = "")) ∧
    (∀ (todo_id : Nat) (todo : Todo) (fs : List (String × JVal))
      (t : String), findTodo emptyStore todo_id = some todo →
      (JVal.jobj fs).getKey "title" = some (JVal.jstr t) →
      pyStrip t = "" →
      update_todo emptyStore todo_id (some (JVal.jobj fs)) true =
        (errorResp 400 "Title cannot be empty", emptyStore)) :=
  trim_on_write emptyStore (fun t ht => absurd ht (List.not_mem_nil t))
